import Mathlib

namespace TraceError

/-!
Shallow embedding of the `trace-error` crate (`src/lib.rs`, `src/backtrace.rs`).

The external `backtrace` crate is modelled by plain data: a captured
`Backtrace` is the list of its frames, and each frame is the list of the
symbol records its resolution yields (several when inlining occurred).
Rust strings become `String`, `u32`/addresses become `Nat`, `Option`
fields stay `Option`.  The ambient stack captured by `Backtrace::new()`
and the current thread's name are effects; they are passed explicitly as
parameters.  `Result<T, Trace<E>>` becomes `Except (Trace E) T`.
-/

/-- Resolved symbol record produced by the external resolver
(`bt::Symbol` / `bt::BacktraceSymbol`): every accessor of the `backtrace`
crate returns an `Option`, so all four components are optional. -/
structure Symbol where
  name : Option String
  addr : Option Nat
  filename : Option String
  lineno : Option Nat
deriving DecidableEq

/-- Captured stack snapshot (`bt::Backtrace`): `frames()` yields the frames
in innermost-first order, and `frame.symbols()` yields each frame's resolved
symbol records. -/
abbrev Backtrace := List (List Symbol)

/-- Pluggable per-symbol formatting strategy: the `BacktraceFmt` trait's
`format` / `format_captured` (both receive the visible count and a symbol). -/
abbrev BacktraceFmt := Nat → Symbol → String

/-- Substring test on character lists, used to model Rust's
`str::contains`. -/
def containsSub (pat : List Char) : List Char → Bool
  | [] => decide (pat = [])
  | c :: rest => pat.isPrefixOf (c :: rest) || containsSub pat rest

/-- Rust's `str::contains` on `String`s. -/
def strContains (haystack pat : String) : Bool :=
  containsSub pat.data haystack.data

/-- A run of `n` spaces, modelling Rust's width padding with the default
fill character. -/
def spaces (n : Nat) : String :=
  String.mk (List.replicate n ' ')

/-- Right-align `s` in a field of width `w` (Rust format spec `:>w`). -/
def padLeft (s : String) (w : Nat) : String :=
  spaces (w - s.length) ++ s

/-- Render an address the way Rust's `\x7b:p\x7d` does: `0x` followed by
lowercase hexadecimal digits. -/
def ptrHex (a : Nat) : String :=
  "0x" ++ String.mk (Nat.toDigits 16 a)

/-- First half of `DefaultBacktraceFmt::real_format`: the
`format!("...", count, addr.unwrap_or(0), name, "", ptr_width, ptr_width + 6)`
call, with `ptr_width = mem::size_of::<usize>() * 2 + 2` on a 64-bit target
and a missing name rendered as `<unknown>`. -/
def fmtBegin (count : Nat) (name : Option String) (addr : Option Nat) : String :=
  let ptr_width : Nat := 8 * 2 + 2
  let nm := name.getD "<unknown>"
  padLeft (toString count) 4 ++ ": " ++ padLeft (ptrHex (addr.getD 0)) ptr_width
    ++ " - " ++ nm ++ "\n" ++ spaces (ptr_width + 6)

/-- `DefaultBacktraceFmt::real_format`: the begin part followed by the
location suffix chosen by the nested `if let` chain on `filename` and
`lineno`. -/
def real_format (count : Nat) (name : Option String) (addr : Option Nat)
    (filename : Option String) (lineno : Option Nat) : String :=
  fmtBegin count name addr ++
    match filename, lineno with
    | some f, some l => "at " ++ f ++ ":" ++ toString l ++ "\n"
    | some f, none => "at " ++ f ++ "\n"
    | none, some l => "at <anonymous>:" ++ toString l ++ "\n"
    | none, none => "at <anonymous>\n"

/-- `DefaultBacktraceFmt`'s trait implementation: both `format` and
`format_captured` delegate to `real_format` on the symbol's four accessors. -/
def DefaultBacktraceFmt : BacktraceFmt := fun count symbol =>
  real_format count symbol.name symbol.addr symbol.filename symbol.lineno

/-- The self-filter test of `SourceBacktrace::format`: a symbol is elided
when its resolved name contains the substring `Backtrace::new` (the nested
`if let Some(name) = symbol.name()` / `name.as_str()` chain; an unresolved
name never matches). -/
def filteredName (symbol : Symbol) : Bool :=
  match symbol.name with
  | some n => strContains n "Backtrace::new"
  | none => false

/-- Header line shared by `format_trace` and `SourceBacktrace::format`:
`thread::current().name().unwrap_or("unnamed")` interpolated into the
`Stack backtrace for task ...` format string. -/
def backtraceHeader (tname : Option String) (line : Nat) (file : String) : String :=
  "Stack backtrace for task \"<" ++ tname.getD "unnamed" ++ ">\" at line "
    ++ toString line ++ " of \"" ++ file ++ "\":\n"

/-- Backtrace stamped with the line and file it originated from
(`SourceBacktrace` in `src/backtrace.rs`). -/
structure SourceBacktrace where
  backtrace : Backtrace
  line : Nat
  file : String
deriving DecidableEq

/-- `SourceBacktrace::new(line, file)`: stores the supplied coordinates and
the stack captured by `Backtrace::new()`; the capture is an effect, so the
captured snapshot is passed explicitly as `captured`. -/
def SourceBacktrace.new (line : Nat) (file : String) (captured : Backtrace) :
    SourceBacktrace :=
  { backtrace := captured, line := line, file := file }

/-- `SourceBacktrace::raw`: read-only access to the raw snapshot. -/
def SourceBacktrace.raw (self : SourceBacktrace) : Backtrace :=
  self.backtrace

/-- Per-symbol body of both loops of `SourceBacktrace::format`, with
`IGNORE_COUNT = 1`: when `count >= IGNORE_COUNT`, a name matching the
self-filter is skipped by `continue` (so `count` is not incremented),
otherwise `Fmt::format_captured(count - IGNORE_COUNT, symbol)` is appended
and `count += 1`; below the ignore threshold only `count += 1` runs. -/
def formatStep (Fmt : BacktraceFmt) (st : String × Nat) (symbol : Symbol) :
    String × Nat :=
  if 1 ≤ st.2 then
    if filteredName symbol then st
    else (st.1 ++ Fmt (st.2 - 1) symbol, st.2 + 1)
  else (st.1, st.2 + 1)

/-- `SourceBacktrace::format::<Fmt>(header, reverse)`: optional header, then
either the forward nested walk over `frames()`/`symbols()`, or (reverse) a
collection of every symbol into one vector followed by a walk over
`symbols.iter().rev()`, both threading the shared `count` through
`formatStep`. -/
def SourceBacktrace.format (Fmt : BacktraceFmt) (header reverse : Bool)
    (tname : Option String) (self : SourceBacktrace) : String :=
  let traces := if header then backtraceHeader tname self.line self.file else ""
  if reverse then
    let symbols := self.backtrace.foldl
      (fun acc frame => frame.foldl (fun a s => a ++ [s]) acc) ([] : List Symbol)
    (symbols.reverse.foldl (formatStep Fmt) (traces, 0)).1
  else
    (self.backtrace.foldl (fun st frame => frame.foldl (formatStep Fmt) st)
      (traces, 0)).1

/-- One frame as seen by `format_trace`: `resolve(frame.ip(), cb)` invokes
its callback once per resolved symbol (`ipSymbols`), and when it invoked it
zero times the fallback `resolve(frame.symbol_address(), cb)` is tried
(`saSymbols`). -/
structure FTFrame where
  ipSymbols : List Symbol
  saSymbols : List Symbol
deriving DecidableEq

/-- Body of the `resolve` callbacks inside `format_trace`:
`traces += Fmt::format(count - IGNORE_COUNT, symbol)` then `count += 1`,
with `IGNORE_COUNT = 2`. -/
def resolveStep (Fmt : BacktraceFmt) (st : String × Nat) (symbol : Symbol) :
    String × Nat :=
  (st.1 ++ Fmt (st.2 - 2) symbol, st.2 + 1)

/-- `format_trace::<Fmt>(header, line, file)`: optional header, then the
`trace(|frame| ...)` walk with `IGNORE_COUNT = 2`, skipping the first two
frames (one `count` increment per skipped frame), resolving by instruction
pointer and falling back to `symbol_address` when no symbol was produced. -/
def format_trace (Fmt : BacktraceFmt) (header : Bool) (line : Nat)
    (file : String) (tname : Option String) (frames : List FTFrame) : String :=
  let traces := if header then backtraceHeader tname line file else ""
  (frames.foldl
    (fun st frame =>
      if st.2 < 2 then (st.1, st.2 + 1)
      else
        let before := st.2
        let st1 := frame.ipSymbols.foldl (resolveStep Fmt) st
        if st1.2 = before then frame.saSymbols.foldl (resolveStep Fmt) st1
        else st1)
    (traces, 0)).1

/-- The `impl From<Backtrace> for SourceBacktrace` in `src/backtrace.rs`:
`line!()` and `file!()` expand at the impl's own source text
(line 247 of `src/backtrace.rs`), not at any caller's call site. -/
def SourceBacktrace.fromBacktrace (backtrace : Backtrace) : SourceBacktrace :=
  { line := 247, file := "src/backtrace.rs", backtrace := backtrace }

/-- Trace error container: an error value together with the backtrace to its
origin (`Trace<E>` in `src/lib.rs`; the `Box` indirection is immaterial to
the model). -/
structure Trace (E : Type) where
  error : E
  backtrace : SourceBacktrace

/-- `Trace::new(error, backtrace)`. -/
def Trace.new {E : Type} (error : E) (backtrace : SourceBacktrace) : Trace E :=
  { error := error, backtrace := backtrace }

/-- `Trace::into_error`: consume the container and return the inner error. -/
def Trace.into_error {E : Type} (self : Trace E) : E :=
  self.error

/-- `Trace::convert::<O>()`: retype the error through `From::from` (modelled
by the explicit conversion `f`), moving the backtrace across unchanged. -/
def Trace.convert {E O : Type} (f : E → O) (self : Trace E) : Trace O :=
  { error := f self.error, backtrace := self.backtrace }

/-- `Trace::format::<Fmt>(header, reverse)`:
`format!("...", self.error, self.backtrace.format::<Fmt>(header, reverse))`,
with the error's `Display` rendering supplied as `dispE`. -/
def Trace.format {E : Type} (dispE : E → String) (Fmt : BacktraceFmt)
    (header reverse : Bool) (tname : Option String) (self : Trace E) : String :=
  dispE self.error ++ "\n" ++ self.backtrace.format Fmt header reverse tname

/-- The `Display` impl for `Trace<E>`:
`write!(f, "...", self.format::<DefaultBacktraceFmt>(true, false))`. -/
def Trace.display {E : Type} (dispE : E → String) (tname : Option String)
    (self : Trace E) : String :=
  self.format dispE DefaultBacktraceFmt true false tname

/-- Alias `TraceResult<T, E> = Result<T, Trace<E>>`. -/
abbrev TraceResult (T E : Type) := Except (Trace E) T

/-- Expansion of the `trace_error!` macro at a call site with coordinates
`line`/`file`: `Err(Trace::new(From::from(err), Box::new(SourceBacktrace::new(line!(), file!()))))`.
The stack captured there is `ambient`, and the number of backtrace captures
performed so far is threaded through as `captures` (this operation performs
exactly one). -/
def trace_error {T F E : Type} (conv : F → E) (err : F) (line : Nat)
    (file : String) (ambient : Backtrace) (captures : Nat) :
    TraceResult T E × Nat :=
  (Except.error (Trace.new (conv err) (SourceBacktrace.new line file ambient)),
   captures + 1)

/-- Expansion of the `try_rethrow!` macro: `Ok(val)` unwraps to `val`,
`Err(err)` returns `Err(err.convert())`.  No backtrace is captured, so the
`captures` counter is returned untouched. -/
def try_rethrow {T E O : Type} (conv : E → O) (res : TraceResult T E)
    (captures : Nat) : TraceResult T O × Nat :=
  match res with
  | Except.ok val => (Except.ok val, captures)
  | Except.error err => (Except.error (err.convert conv), captures)

/-- Iterated forward-traced conversion: a chain of `N = fs.length`
applications of `Trace::convert` (as performed by successive `try_rethrow!`
sites), here along a fixed error type so the chain is a plain fold. -/
def convertChain {E : Type} (fs : List (E → E)) (t : Trace E) : Trace E :=
  fs.foldl (fun t f => t.convert f) t

/-- The user error type of the crate's doc example (`examples/basic.rs`),
`Io` payload elided to its description string. -/
inductive MyErrorType where
  | Io : String → MyErrorType
  | ErrorOne : MyErrorType
  | ErrorTwo : MyErrorType
deriving DecidableEq

/-- The doc example's `basic()`: succeeds with `Ok(42)`. -/
def basic : TraceResult Int MyErrorType :=
  Except.ok 42

/-- Symbols that survive a formatting traversal of `SourceBacktrace::format`:
the first symbol of the traversal is consumed by `IGNORE_COUNT = 1`, and
symbols matching the self-filter are dropped. -/
def visibleSymbols (syms : List Symbol) : List Symbol :=
  (syms.drop 1).filter (fun s => !filteredName s)

/-- Render a symbol list with consecutive indices starting at `k`. -/
def renderFrom (Fmt : BacktraceFmt) : Nat → List Symbol → String
  | _, [] => ""
  | k, s :: rest => Fmt k s ++ renderFrom Fmt (k + 1) rest

/-- Variant of `formatStep` that collects the rendered frame bodies as a
list instead of concatenating them, used to state multiset properties about
the emitted bodies. -/
def formatStepBodies (Fmt : BacktraceFmt) (st : List String × Nat)
    (symbol : Symbol) : List String × Nat :=
  if 1 ≤ st.2 then
    if filteredName symbol then st
    else (st.1 ++ [Fmt (st.2 - 1) symbol], st.2 + 1)
  else (st.1, st.2 + 1)

/-- The list of rendered frame bodies of one `SourceBacktrace::format` run
(header excluded): the same traversal as `format`, collecting each
`Fmt::format_captured` output separately. -/
def formatBodies (Fmt : BacktraceFmt) (reverse : Bool)
    (sb : SourceBacktrace) : List String :=
  let syms := sb.backtrace.flatten
  ((if reverse then syms.reverse else syms).foldl (formatStepBodies Fmt)
    ([], 0)).1

lemma foldl_formatStep_succ (Fmt : BacktraceFmt) :
    ∀ (rest : List Symbol) (acc : String) (k : Nat),
      rest.foldl (formatStep Fmt) (acc, k + 1)
        = (acc ++ renderFrom Fmt k (rest.filter fun s => !filteredName s),
           k + 1 + (rest.filter fun s => !filteredName s).length)
  | [], acc, k => by
    simp [renderFrom, String.append_empty]
  | s :: t, acc, k => by
    by_cases h : filteredName s = true
    · have hstep : formatStep Fmt (acc, k + 1) s = (acc, k + 1) := by
        simp [formatStep, h]
      rw [List.foldl_cons, hstep, foldl_formatStep_succ Fmt t acc k]
      simp [List.filter_cons, h]
    · have hstep : formatStep Fmt (acc, k + 1) s
        = (acc ++ Fmt k s, (k + 1) + 1) := by
        simp [formatStep, h]
      rw [List.foldl_cons, hstep,
        foldl_formatStep_succ Fmt t (acc ++ Fmt k s) (k + 1)]
      simp [List.filter_cons, h, renderFrom, String.append_assoc]
      omega

lemma foldl_formatStep_zero (Fmt : BacktraceFmt) (syms : List Symbol)
    (acc : String) :
    (syms.foldl (formatStep Fmt) (acc, 0)).1
      = acc ++ renderFrom Fmt 0 (visibleSymbols syms) := by
  cases syms with
  | nil => simp [visibleSymbols, renderFrom, String.append_empty]
  | cons s t =>
    have hstep : formatStep Fmt (acc, 0) s = (acc, 1) := by
      simp [formatStep]
    rw [List.foldl_cons, hstep]
    have := foldl_formatStep_succ Fmt t acc 0
    rw [show (1 : Nat) = 0 + 1 from rfl, this]
    simp [visibleSymbols]

lemma foldl_push_eq_append :
    ∀ (l acc : List Symbol), l.foldl (fun a s => a ++ [s]) acc = acc ++ l
  | [], acc => by simp
  | s :: t, acc => by
    rw [List.foldl_cons, foldl_push_eq_append t (acc ++ [s])]
    simp

lemma collect_eq_flatten (bt : Backtrace) :
    bt.foldl (fun acc frame => frame.foldl (fun a s => a ++ [s]) acc) []
      = bt.flatten := by
  rw [← List.foldl_flatten, foldl_push_eq_append]
  simp

lemma format_forward_eq (Fmt : BacktraceFmt) (header : Bool)
    (tname : Option String) (sb : SourceBacktrace) :
    SourceBacktrace.format Fmt header false tname sb
      = (if header then backtraceHeader tname sb.line sb.file else "")
        ++ renderFrom Fmt 0 (visibleSymbols sb.backtrace.flatten) := by
  show (sb.backtrace.foldl (fun st frame => frame.foldl (formatStep Fmt) st)
      (if header then backtraceHeader tname sb.line sb.file else "", 0)).1 = _
  rw [← List.foldl_flatten, foldl_formatStep_zero]

lemma format_reverse_eq (Fmt : BacktraceFmt) (header : Bool)
    (tname : Option String) (sb : SourceBacktrace) :
    SourceBacktrace.format Fmt header true tname sb
      = (if header then backtraceHeader tname sb.line sb.file else "")
        ++ renderFrom Fmt 0 (visibleSymbols sb.backtrace.flatten.reverse) := by
  show ((sb.backtrace.foldl
      (fun acc frame => frame.foldl (fun a s => a ++ [s]) acc) []).reverse.foldl
      (formatStep Fmt)
      (if header then backtraceHeader tname sb.line sb.file else "", 0)).1 = _
  rw [collect_eq_flatten, foldl_formatStep_zero]

lemma visibleSymbols_all_unfiltered (l : List Symbol) :
    (visibleSymbols l).all (fun s => !filteredName s) = true := by
  simp [visibleSymbols, List.all_filter]

lemma convertChain_backtrace {E : Type} :
    ∀ (fs : List (E → E)) (t : Trace E),
      (convertChain fs t).backtrace = t.backtrace
  | [], _ => rfl
  | f :: fs, t => by
    show (convertChain fs (t.convert f)).backtrace = t.backtrace
    rw [convertChain_backtrace fs (t.convert f)]
    rfl

/-- Name-only formatter used for concrete evaluations: renders just the
symbol's name followed by a semicolon. -/
def nameOnlyFmt : BacktraceFmt := fun _ s => s.name.getD "<unknown>" ++ ";"

/-- The innermost captured symbol of a typical capture: the
`backtrace::trace` call frame (the capture machinery `IGNORE_COUNT = 1` is
meant to hide, per the comment in `SourceBacktrace::format`). -/
def traceSym : Symbol := ⟨some "backtrace::trace", none, none, none⟩

/-- A user frame between the capture machinery and the program entry. -/
def innerSym : Symbol := ⟨some "example::inner", none, none, none⟩

/-- The outermost captured symbol (the program entry point). -/
def outerSym : Symbol := ⟨some "example::main", none, none, none⟩

/-- A three-frame captured backtrace: capture machinery innermost, then a
user frame, then the entry point. -/
def captureSb : SourceBacktrace := ⟨[[traceSym], [innerSym], [outerSym]], 10, "app.rs"⟩

/-- A symbol whose resolved name contains the capture constructor's name
`Backtrace::new`, as left behind by `Backtrace::new()` itself. -/
def newSym : Symbol := ⟨some "backtrace::Backtrace::new::h1", none, none, none⟩

/-- A user symbol for `format_trace` runs. -/
def userSym1 : Symbol := ⟨some "user::f", none, none, none⟩

/-- Another user symbol for `format_trace` runs. -/
def userSym2 : Symbol := ⟨some "user::g", none, none, none⟩

/-- Frames for a `format_trace` run: two leading frames (consumed by
`IGNORE_COUNT = 2`) followed by a frame resolving to a `Backtrace::new`
symbol. -/
def inlineFrames : List FTFrame := [⟨[userSym1], []⟩, ⟨[userSym2], []⟩, ⟨[newSym], []⟩]

/-- Distinctly named symbols for order-symmetry evaluations. -/
def alphaSym : Symbol := ⟨some "alpha", none, none, none⟩

/-- Second distinctly named symbol. -/
def betaSym : Symbol := ⟨some "beta", none, none, none⟩

/-- Third distinctly named symbol. -/
def gammaSym : Symbol := ⟨some "gamma", none, none, none⟩

/-- A three-frame backtrace with pairwise distinct symbol names. -/
def orderSb : SourceBacktrace := ⟨[[alphaSym], [betaSym], [gammaSym]], 5, "m.rs"⟩

/-- C1: for every error value and captured backtrace, any chain of
forward-traced conversions (`Trace::convert`, as invoked by `try_rethrow!`)
applied to `Trace::new(e, b)` leaves the backtrace exactly `b` — same file,
same line, the very snapshot bound at construction — and a single `convert`
changes only the `error` field. -/
theorem convert_chain_preserves_backtrace :
    ∀ (E : Type) (fs : List (E → E)) (e : E) (b : SourceBacktrace),
      (convertChain fs (Trace.new e b)).backtrace = b
      ∧ (convertChain fs (Trace.new e b)).backtrace.line = b.line
      ∧ (convertChain fs (Trace.new e b)).backtrace.file = b.file
      ∧ ∀ (O : Type) (f : E → O) (t : Trace E),
          (Trace.convert f t).backtrace = t.backtrace
          ∧ (Trace.convert f t).error = f t.error := by
  intro E fs e b
  rw [convertChain_backtrace fs (Trace.new e b)]
  exact ⟨rfl, rfl, rfl, fun _ _ _ => ⟨rfl, rfl⟩⟩

/-- C2: `Trace::new(e, b)` yields exactly `e` from `into_error()` and
exactly `b` from `backtrace()`; both reads are pure, so order is
irrelevant and the container is not mutated. -/
theorem trace_roundtrip_extraction :
    ∀ (E : Type) (e : E) (b : SourceBacktrace),
      Trace.into_error (Trace.new e b) = e
      ∧ (Trace.new e b).backtrace = b :=
  fun _ _ _ => ⟨rfl, rfl⟩

/-- C3 evaluation at the failing input: in reverse order,
`SourceBacktrace::format` renders the capture-machinery symbol
`backtrace::trace` (it is not caught by the name filter either) and drops
the outermost frame `example::main` instead, while the forward order
correctly hides the capture frame. -/
theorem reverse_skip_eats_outermost_eval :
    SourceBacktrace.format nameOnlyFmt false true none captureSb
      = "example::inner;backtrace::trace;"
    ∧ SourceBacktrace.format nameOnlyFmt false false none captureSb
      = "example::inner;example::main;"
    ∧ filteredName traceSym = false :=
  ⟨rfl, rfl, by decide⟩

/-- C4 counterexample: the inline path `format_trace` applies no
`Backtrace::new` name filter — a symbol whose name contains
`Backtrace::new` is rendered (here it is the whole output), contradicting
the claim that both formatting paths elide such symbols. -/
theorem format_trace_renders_backtrace_new :
    format_trace nameOnlyFmt false 0 "app.rs" none inlineFrames
      = "backtrace::Backtrace::new::h1;"
    ∧ filteredName newSym = true
    ∧ "backtrace::Backtrace::new::h1;" ≠ "" :=
  ⟨rfl, by decide, by decide⟩

/-- C4 amended: only `SourceBacktrace::format` (forward and reverse alike)
elides symbols whose resolved name contains `Backtrace::new`: its output is
the header plus the consecutive rendering of exactly the symbols surviving
the initial skip and the name filter, and every surviving symbol fails the
filter test, so a filtered symbol is never rendered and consumes no index
slot. -/
theorem source_format_filters_backtrace_new :
    ∀ (Fmt : BacktraceFmt) (header reverse : Bool) (tname : Option String)
      (sb : SourceBacktrace),
      SourceBacktrace.format Fmt header reverse tname sb
        = (if header then backtraceHeader tname sb.line sb.file else "")
          ++ renderFrom Fmt 0 (visibleSymbols
              (if reverse then sb.backtrace.flatten.reverse
               else sb.backtrace.flatten))
      ∧ (visibleSymbols
          (if reverse then sb.backtrace.flatten.reverse
           else sb.backtrace.flatten)).all (fun s => !filteredName s)
        = true := by
  intro Fmt header reverse tname sb
  cases reverse with
  | false => exact ⟨format_forward_eq Fmt header tname sb,
      visibleSymbols_all_unfiltered _⟩
  | true => exact ⟨format_reverse_eq Fmt header tname sb,
      visibleSymbols_all_unfiltered _⟩

/-- C5 counterexample: formatting forward and then reversing the frame list
does not yield the same multiset of rendered frame bodies as reverse-order
formatting — the initial skip consumes the innermost symbol in forward
order but the outermost symbol in reverse order, so one multiset holds
`gamma;` where the other holds `alpha;`.  The body lists shown are exactly
what `SourceBacktrace::format` concatenates after the header. -/
theorem forward_reverse_multiset_mismatch :
    Multiset.ofList ((formatBodies nameOnlyFmt false orderSb).reverse)
      ≠ Multiset.ofList (formatBodies nameOnlyFmt true orderSb)
    ∧ SourceBacktrace.format nameOnlyFmt false false none orderSb
      = String.join (formatBodies nameOnlyFmt false orderSb)
    ∧ SourceBacktrace.format nameOnlyFmt false true none orderSb
      = String.join (formatBodies nameOnlyFmt true orderSb)
    ∧ formatBodies nameOnlyFmt false orderSb = ["beta;", "gamma;"]
    ∧ formatBodies nameOnlyFmt true orderSb = ["beta;", "alpha;"] :=
  ⟨by decide, rfl, rfl, rfl, rfl⟩

/-- C5 amended: reverse mode has collect-then-iterate-backward semantics —
it collects every symbol of every frame into one flat sequence and then
runs the very same emission (skip, filter, indexing) over that sequence
reversed, i.e. reverse-order output equals forward-order output on the
backtrace whose single frame is the reversed flat symbol sequence. -/
theorem reverse_is_forward_on_reversed_flat :
    ∀ (Fmt : BacktraceFmt) (header : Bool) (tname : Option String)
      (sb : SourceBacktrace),
      SourceBacktrace.format Fmt header true tname sb
        = SourceBacktrace.format Fmt header false tname
            { backtrace := [sb.backtrace.flatten.reverse],
              line := sb.line, file := sb.file } := by
  intro Fmt header tname sb
  rw [format_reverse_eq, format_forward_eq]
  simp

/-- C6: `DefaultBacktraceFmt::real_format` renders the location suffix as
`at <file>:<line>`, `at <file>`, `at <anonymous>:<line>` or
`at <anonymous>` according to which of the file and line are present, a
missing name renders as `<unknown>`, and every combination of missing
fields produces a well-defined string. -/
theorem real_format_location_placeholders :
    ∀ (c : Nat) (n : Option String) (a : Option Nat) (f : String) (l : Nat),
      real_format c n a (some f) (some l)
        = fmtBegin c n a ++ ("at " ++ f ++ ":" ++ toString l ++ "\n")
      ∧ real_format c n a (some f) none
        = fmtBegin c n a ++ ("at " ++ f ++ "\n")
      ∧ real_format c n a none (some l)
        = fmtBegin c n a ++ ("at <anonymous>:" ++ toString l ++ "\n")
      ∧ real_format c n a none none
        = fmtBegin c n a ++ "at <anonymous>\n"
      ∧ fmtBegin c none a = fmtBegin c (some "<unknown>") a :=
  fun _ _ _ _ _ => ⟨rfl, rfl, rfl, rfl, rfl⟩

/-- C7: `Trace::format(header, reverse)` is exactly the error's `Display`
rendering, one newline, then the bound backtrace's
`format(header, reverse)` output. -/
theorem trace_format_concatenation :
    ∀ (E : Type) (dispE : E → String) (Fmt : BacktraceFmt)
      (header reverse : Bool) (tname : Option String) (e : E)
      (b : SourceBacktrace),
      Trace.format dispE Fmt header reverse tname (Trace.new e b)
        = dispE e ++ "\n" ++ SourceBacktrace.format Fmt header reverse tname b :=
  fun _ _ _ _ _ _ _ _ => rfl

/-- C8: the `Display` impl of `Trace` produces exactly
`format::<DefaultBacktraceFmt>(true, false)` — the default per-symbol
formatter, header enabled, forward order. -/
theorem trace_display_is_forward_headered_format :
    ∀ (E : Type) (dispE : E → String) (tname : Option String) (t : Trace E),
      Trace.display dispE tname t
        = Trace.format dispE DefaultBacktraceFmt true false tname t :=
  fun _ _ _ _ => rfl

/-- C9: `try_rethrow!` on an `Ok` result yields exactly the wrapped value,
leaves the capture counter untouched (zero captures, no conversion applied,
whatever the conversion is), in particular `try_rethrow!(basic())` yields
exactly `42`; by contrast the capturing `trace_error!` expansion performs
exactly one capture. -/
theorem rethrow_ok_yields_value_no_capture :
    ∀ (T E O : Type) (conv : E → O) (v : T) (captures : Nat),
      try_rethrow conv (Except.ok v) captures = (Except.ok v, captures)
      ∧ (∀ (P : Type) (conv2 : MyErrorType → P) (c : Nat),
          try_rethrow conv2 basic c = (Except.ok 42, c))
      ∧ (∀ (F : Type) (cv : F → E) (err : F) (line c : Nat) (file : String)
          (ambient : Backtrace),
          (trace_error (T := T) cv err line file ambient c).2 = c + 1) :=
  fun _ _ _ _ _ _ =>
    ⟨rfl, fun _ _ _ => rfl, fun _ _ _ _ _ _ _ => rfl⟩

/-- C10: the `From<Backtrace>` conversion stamps the resulting
`SourceBacktrace` with the file and line of the impl's own source text
(line 247 of `src/backtrace.rs`), independent of any caller, while
`SourceBacktrace::new` records exactly the line and file it is handed (the
caller's `line!()`/`file!()` through the macros). -/
theorem from_backtrace_stamps_impl_site :
    ∀ (b : Backtrace) (l : Nat) (f : String) (amb : Backtrace),
      (SourceBacktrace.fromBacktrace b).line = 247
      ∧ (SourceBacktrace.fromBacktrace b).file = "src/backtrace.rs"
      ∧ (SourceBacktrace.fromBacktrace b).backtrace = b
      ∧ (SourceBacktrace.new l f amb).line = l
      ∧ (SourceBacktrace.new l f amb).file = f :=
  fun _ _ _ _ => ⟨rfl, rfl, rfl, rfl, rfl⟩

end TraceError
